import Mathlib

/-!
Shallow embedding of the build planner of `snmalloc-rs`
(`snmalloc-sys/build.rs`) and of the allocator result adapter
(`src/lib.rs`), together with theorems checking the specification's
claims about them.

The build script is a pure decision procedure once its ambient inputs are
made explicit:

* compile-time facts of the build script itself (`cfg!(feature = ...)`,
  `cfg!(target_os = ...)`) are collected in `CfgFeatures`;
* process-environment facts (`CARGO_CFG_TARGET_OS`, `CC`, `ANDROID_NDK`,
  ...) are collected in `BuildContext`, each one optional exactly as
  `env::var` may fail;
* the mutable `cc::Build`/`cmake::Config` builder is modelled by `Builder`,
  an append-only record of the `flag_if_supported` requests and of the
  `define` calls, in call order;
* the `cargo:rustc-link-*` lines printed by `configure_linking` are
  modelled as a list of `LinkDirective`;
* `expect`/`unwrap`/`panic!` are modelled by `Except String`.
-/

set_option maxHeartbeats 1000000

namespace SnmallocBuild

/-- Substring test, the model of Rust's `str::contains`. -/
def strContains (hay needle : String) : Bool :=
  decide (needle.toList <:+: hay.toList)

/-- Compiler classification, from `enum Compiler` in `build.rs`. -/
inductive Compiler where
  | clang
  | gcc
  | msvc
  | unknown
deriving DecidableEq, Repr

/-- Feature toggles snapshot, from `struct BuildFeatures` in `build.rs`. -/
structure BuildFeatures where
  native_cpu : Bool
  qemu : Bool
  wait_on_address : Bool
  lto : Bool
  notls : Bool
  win8compat : Bool
  stats : Bool
  android_lld : Bool
  local_dynamic_tls : Bool
deriving DecidableEq, Repr

/-- Compile-time facts of the build script: every `cfg!(feature = ...)`
occurring in `build.rs`, plus `cfg_target_os`, the operating system the
build script itself is compiled for, which is what
`cfg!(target_os = "...")` inspects inside `configure_linking`. -/
structure CfgFeatures where
  debug : Bool
  usecxx17 : Bool
  check : Bool
  build_cc : Bool
  native_cpu : Bool
  qemu : Bool
  wait_on_address : Bool
  lto : Bool
  notls : Bool
  win8compat : Bool
  stats : Bool
  android_lld : Bool
  local_dynamic_tls : Bool
  cfg_target_os : String
deriving DecidableEq, Repr

/-- Ambient process environment of the build script: each field models one
`env::var` lookup, `none` when the variable is unset. -/
structure BuildContext where
  target_os : Option String
  target_env : Option String
  target_family : Option String
  target : Option String
  out_dir : Option String
  msystem : Option String
  cc : Option String
  android_ndk : Option String
  android_platform : Option String
deriving DecidableEq, Repr

/-- The builder state: the ordered list of `flag_if_supported` requests and
the ordered list of `define` calls issued so far. -/
structure Builder where
  flags : List String
  defines : List (String × String)
deriving DecidableEq, Repr

/-- The empty builder, the `cc::Build::new()` starting state. -/
def emptyBuilder : Builder := ⟨[], []⟩

/-- Model of `builder.define(key, value)`: appends one define.  Both the
`cc::Build` and the `cmake::Config` variants record the pair. -/
def Builder.define (b : Builder) (k v : String) : Builder :=
  { b with defines := b.defines ++ [(k, v)] }

/-- Model of `if let Ok(v) = env::var(..) { builder.define(key, v) }`. -/
def defineOpt (b : Builder) (k : String) (o : Option String) : Builder :=
  match o with
  | some v => b.define k v
  | none => b

/-- Model of `if cond { builder.define(key, value) }`. -/
def defineIf (cond : Bool) (b : Builder) (k v : String) : Builder :=
  if cond then b.define k v else b

/-- Model of `builder.flag_if_supported(flag)`.  In `build_cc` mode the
`cc::Build` inherent method records the request (the flag is probed against
the compiler later, at compile time); in cmake mode the `BuilderDefine`
trait impl for `cmake::Config` is a no-op. -/
def Builder.flag_if_supported (cfg : CfgFeatures) (b : Builder) (f : String) : Builder :=
  if cfg.build_cc then { b with flags := b.flags ++ [f] } else b

/-- Applies `flag_if_supported` to each flag of a list in order, the model
of the `for flag in flags { ... }` loops of `build.rs`. -/
def flagsSeq (cfg : CfgFeatures) (b : Builder) (fs : List String) : Builder :=
  fs.foldl (Builder.flag_if_supported cfg) b

/-- The flag requests recorded by the builder that the active compiler
actually accepts: the `cc` crate probes each requested flag and drops the
unsupported ones, the "apply if supported" contract. -/
def appliedFlags (b : Builder) (supported : String → Bool) : List String :=
  b.flags.filter supported

/-- Construction of `BuildFeatures` from the `cfg!` facts,
from `BuildFeatures::new`. -/
def BuildFeatures.new (cfg : CfgFeatures) : BuildFeatures :=
  { native_cpu := cfg.native_cpu
    qemu := cfg.qemu
    wait_on_address := cfg.wait_on_address
    lto := cfg.lto
    notls := cfg.notls
    win8compat := cfg.win8compat
    stats := cfg.stats
    android_lld := cfg.android_lld
    local_dynamic_tls := cfg.local_dynamic_tls }

/-- Model of `BuildConfig::detect_compiler`: `self.is_msvc()` is
`target_env == "msvc"`, and `cc` is the optional `CC` environment hint. -/
def detect_compiler (target_env : String) (cc : Option String) : Compiler :=
  if target_env = "msvc" then Compiler.msvc
  else
    match cc with
    | some s =>
      if strContains s "clang" then Compiler.clang
      else if strContains s "gcc" then Compiler.gcc
      else Compiler.unknown
    | none => Compiler.unknown

/-- The immutable configuration, from `struct BuildConfig` (the builder
itself is kept separate as `Builder`). -/
structure BuildConfig where
  debug : Bool
  optim_level : String
  target_os : String
  target_env : String
  target_family : String
  target : String
  out_dir : String
  build_type : String
  msystem : Option String
  cmake_cxx_standard : String
  target_lib : String
  features : BuildFeatures
  compiler : Compiler
deriving DecidableEq, Repr

/-- Model of `BuildConfig::new`.  The five `expect`/`unwrap` lookups abort
planning when the fact is absent (in source order, so the first missing
fact names the abort message); everything else is total.  The field
`compiler` is filled by `detect_compiler` exactly as the source does right
after the struct literal. -/
def BuildConfig.new (cfg : CfgFeatures) (ctx : BuildContext) : Except String BuildConfig :=
  match ctx.target_os with
  | none => Except.error "target_os not defined!"
  | some tos =>
  match ctx.target_env with
  | none => Except.error "target_env not defined!"
  | some tenv =>
  match ctx.target_family with
  | none => Except.error "target family not set"
  | some tfam =>
  match ctx.target with
  | none => Except.error "TARGET not set"
  | some tgt =>
  match ctx.out_dir with
  | none => Except.error "called Option::unwrap on a None value"
  | some odir =>
  Except.ok
    { debug := cfg.debug
      optim_level := if cfg.debug then "-O0" else "-O3"
      target_os := tos
      target_env := tenv
      target_family := tfam
      target := tgt
      out_dir := odir
      build_type := if cfg.debug then "Debug" else "Release"
      msystem := ctx.msystem
      cmake_cxx_standard := if cfg.usecxx17 then "17" else "20"
      target_lib := if cfg.check then "snmallocshim-checks-rust" else "snmallocshim-rust"
      features := BuildFeatures.new cfg
      compiler := detect_compiler tenv ctx.cc }

/-- Model of `BuildConfig::is_clang_msys`: the MSYS2 tag contains "CLANG". -/
def is_clang_msys (c : BuildConfig) : Bool :=
  match c.msystem with
  | some s => strContains s "CLANG"
  | none => false

/-- Model of `BuildConfig::get_cpp_flags`. -/
def get_cpp_flags (cfg : CfgFeatures) : List String :=
  if cfg.usecxx17 then ["-std=c++17", "/std:c++17"] else ["-std=c++20", "/std:c++20"]

/-- The Windows-family common baseline flags of `configure_platform`. -/
def windowsCommonFlags : List String :=
  ["-mcx16", "-fno-exceptions", "-fno-rtti", "-pthread"]

/-- The CLANG64/CLANGARM64 extra flags of `configure_platform`. -/
def clangMsysFlags : List String :=
  ["-flto", "-fuse-ld=lld", "-stdlib=libc++", "-Wno-error=unknown-pragmas", "-Qunused-arguments"]

/-- The UCRT64 extra flags of `configure_platform`. -/
def ucrtFlags : List String :=
  ["-Wno-error=unknown-pragmas", "-fuse-ld=lld", "-Qunused-arguments"]

/-- The Unix baseline flags of `configure_platform`. -/
def unixFlags : List String :=
  ["-fPIC", "-pthread", "-fno-exceptions", "-fno-rtti", "-mcx16", "-Wno-unused-parameter"]

/-- The fixed MSVC warning/ABI flag set of `configure_platform`. -/
def msvcFlags : List String :=
  ["/nologo", "/W4", "/WX", "/wd4127", "/wd4324", "/wd4201",
   "/Ob2", "/DNDEBUG", "/EHsc", "/Gd", "/TP", "/Gm-", "/GS",
   "/fp:precise", "/Zc:wchar_t", "/Zc:forScope", "/Zc:inline"]

/-- Model of `configure_msys2`: pure defines, only in cmake mode's `main`. -/
def configure_msys2 (c : BuildConfig) (b : Builder) : Builder :=
  match c.msystem with
  | some ms =>
    if ms = "CLANG64" ∨ ms = "CLANGARM64" then
      ((((b.define "CMAKE_CXX_COMPILER" "clang++").define
        "CMAKE_C_COMPILER" "clang").define
        "CMAKE_CXX_FLAGS" "-fuse-ld=lld -stdlib=libc++ -mcx16 -Wno-error=unknown-pragmas -Qunused-arguments").define
        "CMAKE_C_FLAGS" "-fuse-ld=lld -Wno-error=unknown-pragmas -Qunused-arguments").define
        "CMAKE_EXE_LINKER_FLAGS" "-fuse-ld=lld -stdlib=libc++"
    else if ms = "UCRT64" then
      ((b.define "CMAKE_CXX_FLAGS" "-fuse-ld=lld -Wno-error=unknown-pragmas").define
        "CMAKE_SYSTEM_NAME" "Windows").define
        "CMAKE_C_FLAGS" "-fuse-ld=lld -Wno-error=unknown-pragmas"
    else b
  | none => b

/-- Model of `configure_android`.  `ANDROID_NDK` missing and an
unrecognized architecture are the two `panic!` sites. -/
def configure_android (cfg : CfgFeatures) (ctx : BuildContext) (c : BuildConfig)
    (b : Builder) : Except String Builder :=
  match ctx.android_ndk with
  | none => Except.error "ANDROID_NDK environment variable not set"
  | some ndk =>
  let b := b.define "CMAKE_TOOLCHAIN_FILE" (ndk ++ "/build/cmake/android.toolchain.cmake")
  let b := defineOpt b "ANDROID_PLATFORM" ctx.android_platform
  let b := defineIf cfg.android_lld b "ANDROID_LD" "lld"
  if strContains c.target "aarch64" then
    Except.ok (b.define "ANDROID_ABI" "arm64-v8a")
  else if strContains c.target "armv7" then
    Except.ok ((b.define "ANDROID_ARM_MODE" "arm").define "ANDROID_ABI" "armeabi-v7a")
  else if strContains c.target "x86_64" then
    Except.ok (b.define "ANDROID_ABI" "x86_64")
  else if strContains c.target "i686" then
    Except.ok (b.define "ANDROID_ABI" "x86")
  else if strContains c.target "neon" then
    Except.ok (b.define "ANDROID_ABI" "armeabi-v7a with NEON")
  else if strContains c.target "arm" then
    Except.ok (b.define "ANDROID_ABI" "armeabi-v7a")
  else Except.error "Unsupported Android architecture"

/-- The infallible first part of `configure_platform` (everything before
the Android delegation): Windows common flags plus MSYS2 extras, else the
Unix baseline; then the MSVC flag set and the MSVC release-mode defines. -/
def configure_platform_base (cfg : CfgFeatures) (c : BuildConfig) (b : Builder) : Builder :=
  let b :=
    if c.target_os = "windows" then
      let b := flagsSeq cfg b windowsCommonFlags
      match c.msystem with
      | some ms =>
        if ms = "CLANG64" ∨ ms = "CLANGARM64" then flagsSeq cfg b clangMsysFlags
        else if ms = "UCRT64" then flagsSeq cfg b ucrtFlags
        else b
      | none => b
    else if c.target_os = "linux" ∨ c.target_family = "unix" then
      flagsSeq cfg b unixFlags
    else b
  if c.target_env = "msvc" then
    ((flagsSeq cfg b msvcFlags).define
      "CMAKE_CXX_FLAGS_RELEASE" "/O2 /Ob2 /DNDEBUG /EHsc").define
      "CMAKE_C_FLAGS_RELEASE" "/O2 /Ob2 /DNDEBUG /EHsc"
  else b

/-- Model of `configure_platform`: the base stage above, then the Android
delegation when the triple contains "android". -/
def configure_platform (cfg : CfgFeatures) (ctx : BuildContext) (c : BuildConfig)
    (b : Builder) : Except String Builder :=
  let b := configure_platform_base cfg c b
  if strContains c.target "android" then configure_android cfg ctx c b
  else Except.ok b

/-- Model of `configure_features`. -/
def configure_features (cfg : CfgFeatures) (c : BuildConfig) (b : Builder) : Builder :=
  let b :=
    if c.features.native_cpu then
      let b := b.define "SNMALLOC_OPTIMISE_FOR_CURRENT_MACHINE" "ON"
      if cfg.build_cc then b.flag_if_supported cfg "-march=native" else b
    else b
  let b := defineIf c.features.qemu b "SNMALLOC_QEMU_WORKAROUND" "ON"
  let b :=
    if c.features.lto then
      match c.compiler with
      | Compiler.unknown => b
      | Compiler.msvc => b
      | _ => b.define "SNMALLOC_IPO" "ON"
    else b
  let b := defineIf c.features.notls b "SNMALLOC_ENABLE_DYNAMIC_LOADING" "ON"
  let b :=
    if c.features.win8compat then
      if cfg.build_cc then b.define "WINVER" "0x0603" else b.define "WIN8COMPAT" "ON"
    else b
  let b := b.define "SNMALLOC_USE_WAIT_ON_ADDRESS"
    (if c.features.wait_on_address then "1" else "0")
  if cfg.build_cc then b
  else
    let b := b.define "CMAKE_CXX_STANDARD" c.cmake_cxx_standard
    defineIf c.features.stats b "USE_SNMALLOC_STATS" "ON"

/-- Model of `configure_compiler_flags`: the profile optimization level,
`-fomit-frame-pointer`, then both spellings of the C++ standard flag,
each through `flag_if_supported`, unconditionally. -/
def configure_compiler_flags (cfg : CfgFeatures) (c : BuildConfig) (b : Builder) : Builder :=
  flagsSeq cfg
    ((b.flag_if_supported cfg c.optim_level).flag_if_supported cfg "-fomit-frame-pointer")
    (get_cpp_flags cfg)

/-- Model of `configure_tls`. -/
def configure_tls (cfg : CfgFeatures) (c : BuildConfig) (b : Builder) : Builder :=
  if (c.target_family = "unix" ∨ c.target_env = "gnu") ∧ c.target_os ≠ "haiku" then
    b.flag_if_supported cfg
      (if c.features.local_dynamic_tls then "-ftls-model=local-dynamic"
       else "-ftls-model=initial-exec")
  else b

/-- One `cargo:` line printed by `configure_linking`. -/
inductive LinkDirective where
  | staticLib (name : String)
  | dylib (name : String)
  | searchNative (path : String)
deriving DecidableEq, Repr

/-- Model of `configure_linking`: the ordered list of `cargo:rustc-link-*`
lines it prints.  `dst` is the cmake output directory when present.  The
`cfg!(target_os = "...")` tests inside the function inspect the build
script's own compilation target, `cfg.cfg_target_os`. -/
def configure_linking (cfg : CfgFeatures) (c : BuildConfig) (dst : Option String) :
    List LinkDirective :=
  [LinkDirective.staticLib c.target_lib] ++
  if c.target_env = "msvc" then
    (if c.features.win8compat = false then [LinkDirective.dylib "mincore"] else []) ++
    (match dst with
     | some d => [LinkDirective.searchNative (d ++ "/" ++ c.build_type)]
     | none => [])
  else
    (match dst with
     | some d => [LinkDirective.searchNative d]
     | none => []) ++
    if cfg.cfg_target_os = "freebsd" then
      [LinkDirective.searchNative "/usr/local/lib", LinkDirective.dylib "c++"]
    else
      (if c.target_os = "windows" ∧ c.target_env = "gnu" then
        [LinkDirective.dylib "bcrypt", LinkDirective.dylib "winpthread"] ++
        (if is_clang_msys c then [LinkDirective.dylib "c++"]
         else if c.msystem = some "UCRT64" then [LinkDirective.dylib "stdc++"]
         else [LinkDirective.dylib "stdc++", LinkDirective.dylib "atomic"])
      else []) ++
      (if c.target_os = "linux" then
        [LinkDirective.dylib "atomic", LinkDirective.dylib "stdc++", LinkDirective.dylib "pthread"] ++
        (if cfg.usecxx17 ∧ is_clang_msys c = false then [LinkDirective.dylib "gcc"] else [])
      else []) ++
      (if c.target_family = "unix" ∧ cfg.cfg_target_os ≠ "macos" ∧ cfg.cfg_target_os ≠ "freebsd" then
        (if c.target_env = "gnu" then [LinkDirective.dylib "c_nonshared"] else [])
      else if c.target_os ≠ "windows" then
        [LinkDirective.dylib
          (if cfg.cfg_target_os = "macos" ∨ cfg.cfg_target_os = "openbsd" then "c++" else "stdc++")]
      else [])

/-- The builder state both `main` variants hand to `configure_platform`:
a fresh `cc::Build` in `build_cc` mode; in cmake mode the initial
`SNMALLOC_RUST_SUPPORT`/`CMAKE_SH` defines followed by `configure_msys2`. -/
def initialBuilder (cfg : CfgFeatures) (c : BuildConfig) : Builder :=
  if cfg.build_cc then emptyBuilder
  else
    configure_msys2 c
      ((emptyBuilder.define "SNMALLOC_RUST_SUPPORT" "ON").define
        "CMAKE_SH" "CMAKE_SH-NOTFOUND")

/-- The whole planning pass, the model of `main` in both build modes up to
(but excluding) the external compile/build invocation itself.  In
`build_cc` mode `configure_msys2` does not run and `configure_linking`
receives no output directory. -/
def plan (cfg : CfgFeatures) (ctx : BuildContext) (dst : Option String) :
    Except String (BuildConfig × Builder × List LinkDirective) :=
  match BuildConfig.new cfg ctx with
  | Except.error e => Except.error e
  | Except.ok c =>
  match configure_platform cfg ctx c (initialBuilder cfg c) with
  | Except.error e => Except.error e
  | Except.ok b1 =>
  let b2 := configure_compiler_flags cfg c b1
  let b3 := configure_tls cfg c b2
  let b4 := configure_features cfg c b3
  Except.ok (c, b4, configure_linking cfg c (if cfg.build_cc then none else dst))

end SnmallocBuild

namespace SnmallocAlloc

/-- Model of `core::alloc::Layout`: a size and an alignment in bytes. -/
structure Layout where
  size : Nat
  align : Nat
deriving DecidableEq, Repr

/-- Model of `core::alloc::AllocError`. -/
inductive AllocErr where
  | allocError
deriving DecidableEq, Repr

/-- Model of `construct_alloc_result` from `src/lib.rs`: pointers are
naturals with `0` as the null pointer, and a `NonNull<[u8]>` fat pointer is
a (pointer, length) pair built by `slice_from_raw_parts_mut` with the
layout's size as length. -/
def construct_alloc_result (ptr : Nat) (layout : Layout) : Except AllocErr (Nat × Nat) :=
  if ptr = 0 then Except.error AllocErr.allocError
  else Except.ok (ptr, layout.size)

/-- Model of `SnAllocator::allocate`: the FFI call
`sn_rust_allocator_allocate(self.alloc, align, size)` is an opaque oracle
`ffi`, and the result goes through `construct_alloc_result`. -/
def SnAllocator.allocate (ffi : Nat → Nat → Nat → Nat) (self : Nat) (layout : Layout) :
    Except AllocErr (Nat × Nat) :=
  construct_alloc_result (ffi self layout.align layout.size) layout

/-- Model of `SnAllocator::allocate_zeroed`, with its own FFI oracle. -/
def SnAllocator.allocate_zeroed (ffi : Nat → Nat → Nat → Nat) (self : Nat) (layout : Layout) :
    Except AllocErr (Nat × Nat) :=
  construct_alloc_result (ffi self layout.align layout.size) layout

/-- Model of `SnAllocator::grow`: the FFI oracle takes the allocator
handle, the old pointer, old align/size and new align/size, and the result
slice is built from the new layout. -/
def SnAllocator.grow (ffi : Nat → Nat → Nat → Nat → Nat → Nat → Nat) (self ptr : Nat)
    (old_layout new_layout : Layout) : Except AllocErr (Nat × Nat) :=
  construct_alloc_result
    (ffi self ptr old_layout.align old_layout.size new_layout.align new_layout.size) new_layout

/-- Model of `SnAllocator::grow_zeroed`, same shape as `grow`. -/
def SnAllocator.grow_zeroed (ffi : Nat → Nat → Nat → Nat → Nat → Nat → Nat) (self ptr : Nat)
    (old_layout new_layout : Layout) : Except AllocErr (Nat × Nat) :=
  construct_alloc_result
    (ffi self ptr old_layout.align old_layout.size new_layout.align new_layout.size) new_layout

/-- Model of `SnAllocator::shrink`, same shape as `grow`. -/
def SnAllocator.shrink (ffi : Nat → Nat → Nat → Nat → Nat → Nat → Nat) (self ptr : Nat)
    (old_layout new_layout : Layout) : Except AllocErr (Nat × Nat) :=
  construct_alloc_result
    (ffi self ptr old_layout.align old_layout.size new_layout.align new_layout.size) new_layout

end SnmallocAlloc

namespace SnmallocBuild

/-! ### Stage characterization lemmas -/

@[simp]
theorem define_flags (b : Builder) (k v : String) : (Builder.define b k v).flags = b.flags := rfl

@[simp]
theorem define_defines (b : Builder) (k v : String) :
    (Builder.define b k v).defines = b.defines ++ [(k, v)] := rfl

@[simp]
theorem defineOpt_flags (b : Builder) (k : String) (o : Option String) :
    (defineOpt b k o).flags = b.flags := by
  cases o <;> rfl

@[simp]
theorem defineIf_flags (cond : Bool) (b : Builder) (k v : String) :
    (defineIf cond b k v).flags = b.flags := by
  cases cond <;> rfl

theorem defineOpt_defines (b : Builder) (k : String) (o : Option String) :
    (defineOpt b k o).defines =
      b.defines ++ (match o with | some v => [(k, v)] | none => []) := by
  cases o <;> simp [defineOpt]

theorem defineIf_defines (cond : Bool) (b : Builder) (k v : String) :
    (defineIf cond b k v).defines =
      b.defines ++ (if cond then [(k, v)] else []) := by
  cases cond <;> simp [defineIf]

theorem flag_if_supported_flags (cfg : CfgFeatures) (b : Builder) (f : String) :
    (Builder.flag_if_supported cfg b f).flags =
      b.flags ++ (if cfg.build_cc = true then [f] else []) := by
  unfold Builder.flag_if_supported
  by_cases h : cfg.build_cc = true <;> simp [h]

@[simp]
theorem flag_if_supported_defines (cfg : CfgFeatures) (b : Builder) (f : String) :
    (Builder.flag_if_supported cfg b f).defines = b.defines := by
  unfold Builder.flag_if_supported
  by_cases h : cfg.build_cc = true <;> simp [h]

theorem flagsSeq_flags (cfg : CfgFeatures) (fs : List String) : ∀ b : Builder,
    (flagsSeq cfg b fs).flags = b.flags ++ (if cfg.build_cc = true then fs else []) := by
  induction fs with
  | nil => intro b; simp [flagsSeq]
  | cons f fs ih =>
    intro b
    simp only [flagsSeq] at ih ⊢
    rw [List.foldl_cons, ih, flag_if_supported_flags]
    by_cases h : cfg.build_cc = true <;> simp [h]

@[simp]
theorem flagsSeq_defines (cfg : CfgFeatures) (fs : List String) : ∀ b : Builder,
    (flagsSeq cfg b fs).defines = b.defines := by
  induction fs with
  | nil => intro b; simp [flagsSeq]
  | cons f fs ih =>
    intro b
    simp only [flagsSeq] at ih ⊢
    rw [List.foldl_cons, ih, flag_if_supported_defines]

theorem configure_msys2_flags (c : BuildConfig) (b : Builder) :
    (configure_msys2 c b).flags = b.flags := by
  unfold configure_msys2
  cases c.msystem with
  | none => rfl
  | some ms =>
    by_cases h1 : ms = "CLANG64" ∨ ms = "CLANGARM64"
    · simp [h1]
    · by_cases h2 : ms = "UCRT64" <;> simp [h1, h2]

theorem configure_android_flags {cfg : CfgFeatures} {ctx : BuildContext} {c : BuildConfig}
    {b b' : Builder} (h : configure_android cfg ctx c b = Except.ok b') :
    b'.flags = b.flags := by
  unfold configure_android at h
  cases hndk : ctx.android_ndk with
  | none => rw [hndk] at h; cases h
  | some ndk =>
    rw [hndk] at h
    repeat' split at h
    all_goals cases h
    all_goals simp

/-- The MSYS2-dependent extra flags requested by the Windows branch of
`configure_platform`. -/
def msysExtraFlags (msystem : Option String) : List String :=
  match msystem with
  | some ms =>
    if ms = "CLANG64" ∨ ms = "CLANGARM64" then clangMsysFlags
    else if ms = "UCRT64" then ucrtFlags
    else []
  | none => []

/-- The flags `configure_platform` requests for a given configuration. -/
def platformFlagsOf (c : BuildConfig) : List String :=
  (if c.target_os = "windows" then windowsCommonFlags ++ msysExtraFlags c.msystem
   else if c.target_os = "linux" ∨ c.target_family = "unix" then unixFlags
   else []) ++
  (if c.target_env = "msvc" then msvcFlags else [])

theorem configure_platform_base_flags (cfg : CfgFeatures) (c : BuildConfig) (b : Builder) :
    (configure_platform_base cfg c b).flags =
      b.flags ++ (if cfg.build_cc = true then platformFlagsOf c else []) := by
  unfold configure_platform_base platformFlagsOf msysExtraFlags
  repeat' split
  all_goals simp_all [flagsSeq_flags]

theorem configure_platform_flags {cfg : CfgFeatures} {ctx : BuildContext} {c : BuildConfig}
    {b b' : Builder} (h : configure_platform cfg ctx c b = Except.ok b') :
    b'.flags = b.flags ++ (if cfg.build_cc = true then platformFlagsOf c else []) := by
  unfold configure_platform at h
  split at h
  · exact (configure_android_flags h).trans (configure_platform_base_flags cfg c b)
  · cases h; exact configure_platform_base_flags cfg c b

theorem configure_compiler_flags_flags (cfg : CfgFeatures) (c : BuildConfig) (b : Builder) :
    (configure_compiler_flags cfg c b).flags =
      b.flags ++
        (if cfg.build_cc = true then
          c.optim_level :: "-fomit-frame-pointer" :: get_cpp_flags cfg
        else []) := by
  unfold configure_compiler_flags
  rw [flagsSeq_flags, flag_if_supported_flags, flag_if_supported_flags]
  cases hbc : cfg.build_cc <;> simp [hbc]

/-- The TLS-model flag `configure_tls` requests for a given configuration. -/
def tlsFlagsOf (c : BuildConfig) : List String :=
  if (c.target_family = "unix" ∨ c.target_env = "gnu") ∧ c.target_os ≠ "haiku" then
    [if c.features.local_dynamic_tls then "-ftls-model=local-dynamic"
     else "-ftls-model=initial-exec"]
  else []

theorem configure_tls_flags (cfg : CfgFeatures) (c : BuildConfig) (b : Builder) :
    (configure_tls cfg c b).flags = b.flags ++ (if cfg.build_cc = true then tlsFlagsOf c else []) := by
  unfold configure_tls tlsFlagsOf
  split <;> cases hbc : cfg.build_cc <;> simp [hbc, flag_if_supported_flags]

theorem configure_features_flags (cfg : CfgFeatures) (c : BuildConfig) (b : Builder) :
    (configure_features cfg c b).flags =
      b.flags ++
        (if cfg.build_cc = true ∧ c.features.native_cpu = true then ["-march=native"] else []) := by
  unfold configure_features
  by_cases hn : c.features.native_cpu = true <;>
    by_cases hbc : cfg.build_cc = true <;>
      simp [hn, hbc, Builder.flag_if_supported] <;>
      (repeat' split) <;> simp

/-- All the flags the whole planning pass requests, in request order. -/
def planFlagsOf (cfg : CfgFeatures) (c : BuildConfig) : List String :=
  platformFlagsOf c ++ (c.optim_level :: "-fomit-frame-pointer" :: get_cpp_flags cfg) ++
    tlsFlagsOf c ++ (if c.features.native_cpu = true then ["-march=native"] else [])

theorem plan_flags {cfg : CfgFeatures} {ctx : BuildContext} {dst : Option String}
    {c : BuildConfig} {b : Builder} {l : List LinkDirective}
    (h : plan cfg ctx dst = Except.ok (c, b, l)) :
    b.flags = if cfg.build_cc = true then planFlagsOf cfg c else [] := by
  have hb0 : ∀ c', (initialBuilder cfg c').flags = [] := by
    intro c'
    unfold initialBuilder
    cases hbc : cfg.build_cc <;> simp [hbc, configure_msys2_flags, emptyBuilder]
  unfold plan at h
  split at h
  · cases h
  · rename_i c0 hnew
    split at h
    · cases h
    · rename_i b1 hplat
      cases h
      rw [configure_features_flags, configure_tls_flags, configure_compiler_flags_flags,
        configure_platform_flags hplat, hb0]
      cases hbc : cfg.build_cc <;> simp [hbc, planFlagsOf]

theorem new_ok_inv {cfg : CfgFeatures} {ctx : BuildContext} {c : BuildConfig}
    (h : BuildConfig.new cfg ctx = Except.ok c) :
    ctx.target_os = some c.target_os ∧ ctx.target_env = some c.target_env ∧
    ctx.target_family = some c.target_family ∧ ctx.target = some c.target ∧
    ctx.out_dir = some c.out_dir ∧
    c.debug = cfg.debug ∧
    c.optim_level = (if cfg.debug then "-O0" else "-O3") ∧
    c.build_type = (if cfg.debug then "Debug" else "Release") ∧
    c.msystem = ctx.msystem ∧
    c.cmake_cxx_standard = (if cfg.usecxx17 then "17" else "20") ∧
    c.target_lib = (if cfg.check then "snmallocshim-checks-rust" else "snmallocshim-rust") ∧
    c.features = BuildFeatures.new cfg ∧
    c.compiler = detect_compiler c.target_env ctx.cc := by
  unfold BuildConfig.new at h
  repeat' split at h
  all_goals cases h
  all_goals simp_all

theorem plan_ok_inv {cfg : CfgFeatures} {ctx : BuildContext} {dst : Option String}
    {c : BuildConfig} {b : Builder} {l : List LinkDirective}
    (h : plan cfg ctx dst = Except.ok (c, b, l)) :
    BuildConfig.new cfg ctx = Except.ok c ∧
    l = configure_linking cfg c (if cfg.build_cc = true then none else dst) := by
  unfold plan at h
  split at h
  · cases h
  · rename_i c0 hnew
    split at h
    · cases h
    · rename_i b1 hplat
      cases h
      exact ⟨hnew, rfl⟩

/-- Number of `define` calls recorded for a given key. -/
def countKey (b : Builder) (k : String) : Nat :=
  (b.defines.filter (fun p => p.1 = k)).length

theorem countKey_define (b : Builder) (k' v k : String) :
    countKey (b.define k' v) k = countKey b k + (if k' = k then 1 else 0) := by
  simp only [countKey, define_defines, List.filter_append, List.length_append]
  split <;> simp_all [List.filter]

theorem countKey_defineOpt (b : Builder) (k' : String) (o : Option String) (k : String)
    (hne : k' ≠ k) : countKey (defineOpt b k' o) k = countKey b k := by
  cases o <;> simp [defineOpt, countKey_define, hne]

theorem countKey_defineIf (cond : Bool) (b : Builder) (k' v k : String)
    (hne : k' ≠ k) : countKey (defineIf cond b k' v) k = countKey b k := by
  cases cond <;> simp [defineIf, countKey_define, hne]

theorem countKey_flagsSeq (cfg : CfgFeatures) (b : Builder) (fs : List String) (k : String) :
    countKey (flagsSeq cfg b fs) k = countKey b k := by
  simp [countKey, flagsSeq_defines]

theorem countKey_flag_if_supported (cfg : CfgFeatures) (b : Builder) (f k : String) :
    countKey (Builder.flag_if_supported cfg b f) k = countKey b k := by
  simp [countKey, flag_if_supported_defines]

theorem configure_compiler_flags_defines (cfg : CfgFeatures) (c : BuildConfig) (b : Builder) :
    (configure_compiler_flags cfg c b).defines = b.defines := by
  unfold configure_compiler_flags
  simp

theorem configure_tls_defines (cfg : CfgFeatures) (c : BuildConfig) (b : Builder) :
    (configure_tls cfg c b).defines = b.defines := by
  unfold configure_tls
  split <;> simp

theorem countIPO_msys2 (c : BuildConfig) (b : Builder) :
    countKey (configure_msys2 c b) "SNMALLOC_IPO" = countKey b "SNMALLOC_IPO" := by
  unfold configure_msys2
  cases c.msystem with
  | none => rfl
  | some ms => repeat' split
               all_goals simp [countKey_define]

theorem countIPO_platform_base (cfg : CfgFeatures) (c : BuildConfig) (b : Builder) :
    countKey (configure_platform_base cfg c b) "SNMALLOC_IPO" = countKey b "SNMALLOC_IPO" := by
  unfold configure_platform_base
  repeat' split
  all_goals simp [countKey_define, countKey_flagsSeq]

theorem countIPO_android {cfg : CfgFeatures} {ctx : BuildContext} {c : BuildConfig}
    {b b' : Builder} (h : configure_android cfg ctx c b = Except.ok b') :
    countKey b' "SNMALLOC_IPO" = countKey b "SNMALLOC_IPO" := by
  unfold configure_android at h
  cases hndk : ctx.android_ndk with
  | none => rw [hndk] at h; cases h
  | some ndk =>
    rw [hndk] at h
    repeat' split at h
    all_goals cases h
    all_goals simp [countKey_define, countKey_defineOpt, countKey_defineIf]

theorem countIPO_platform {cfg : CfgFeatures} {ctx : BuildContext} {c : BuildConfig}
    {b b' : Builder} (h : configure_platform cfg ctx c b = Except.ok b') :
    countKey b' "SNMALLOC_IPO" = countKey b "SNMALLOC_IPO" := by
  unfold configure_platform at h
  split at h
  · exact (countIPO_android h).trans (countIPO_platform_base cfg c b)
  · cases h; exact countIPO_platform_base cfg c b

theorem countIPO_features (cfg : CfgFeatures) (c : BuildConfig) (b : Builder) :
    countKey (configure_features cfg c b) "SNMALLOC_IPO" =
      countKey b "SNMALLOC_IPO" +
        (if c.features.lto = true ∧ (c.compiler = Compiler.clang ∨ c.compiler = Compiler.gcc)
         then 1 else 0) := by
  unfold configure_features
  by_cases hl : c.features.lto = true
  · cases hc : c.compiler <;>
      repeat' split
    all_goals simp_all [countKey_define, countKey_defineOpt, countKey_defineIf,
      countKey_flag_if_supported]
  · repeat' split
    all_goals simp_all [countKey_define, countKey_defineOpt, countKey_defineIf,
      countKey_flag_if_supported]

theorem countIPO_initial (cfg : CfgFeatures) (c : BuildConfig) :
    countKey (initialBuilder cfg c) "SNMALLOC_IPO" = 0 := by
  unfold initialBuilder
  cases hbc : cfg.build_cc
  · rw [if_neg (by simp [hbc]), countIPO_msys2]
    simp [countKey_define, countKey, emptyBuilder]
  · rw [if_pos (by simp [hbc])]
    simp [countKey, emptyBuilder]

theorem plan_countIPO {cfg : CfgFeatures} {ctx : BuildContext} {dst : Option String}
    {c : BuildConfig} {b : Builder} {l : List LinkDirective}
    (h : plan cfg ctx dst = Except.ok (c, b, l)) :
    countKey b "SNMALLOC_IPO" =
      (if c.features.lto = true ∧ (c.compiler = Compiler.clang ∨ c.compiler = Compiler.gcc)
       then 1 else 0) := by
  unfold plan at h
  split at h
  · cases h
  · rename_i c0 hnew
    split at h
    · cases h
    · rename_i b1 hplat
      cases h
      rw [countIPO_features]
      have h3 : countKey (configure_tls cfg c (configure_compiler_flags cfg c b1)) "SNMALLOC_IPO"
          = countKey b1 "SNMALLOC_IPO" := by
        simp [countKey, configure_tls_defines, configure_compiler_flags_defines]
      rw [h3, countIPO_platform hplat, countIPO_initial]
      simp

/-- Baseline compile-time facts: release cmake-less default features, C++20,
unchecked shim, `build_cc` mode, build script compiled on linux. -/
def cfg0 : CfgFeatures :=
  { debug := false, usecxx17 := false, check := false, build_cc := true,
    native_cpu := false, qemu := false, wait_on_address := false, lto := false,
    notls := false, win8compat := false, stats := false, android_lld := false,
    local_dynamic_tls := false, cfg_target_os := "linux" }

/-- Baseline ambient environment: a native Linux GNU build. -/
def ctx0 : BuildContext :=
  { target_os := some "linux", target_env := some "gnu", target_family := some "unix",
    target := some "x86_64-unknown-linux-gnu", out_dir := some "out",
    msystem := none, cc := none, android_ndk := none, android_platform := none }

/-- Fallback triple for reading a plan result out of `Except`. -/
def fallbackPlanOut : BuildConfig × Builder × List LinkDirective :=
  ({ debug := false, optim_level := "", target_os := "", target_env := "",
     target_family := "", target := "", out_dir := "", build_type := "",
     msystem := none, cmake_cxx_standard := "", target_lib := "",
     features := ⟨false, false, false, false, false, false, false, false, false⟩,
     compiler := Compiler.unknown }, emptyBuilder, [])

/-- The components of a successful plan (fallback on a failed one). -/
def planOut (cfg : CfgFeatures) (ctx : BuildContext) (dst : Option String) :
    BuildConfig × Builder × List LinkDirective :=
  (plan cfg ctx dst).toOption.getD fallbackPlanOut

/-! ### Claim C7: compiler classification -/

/-- C7: if the target environment is msvc, the `CompilerProfile` is msvc
regardless of any compiler-executable hint; otherwise a hint containing
"clang" classifies as clang (the clang test runs before the gcc test, so a
hint containing both substrings classifies as clang), else a hint
containing "gcc" classifies as gcc, else (including an absent hint) the
profile is unknown. -/
theorem c7_compiler_classification (tenv : String) (cc : Option String) :
    (tenv = "msvc" → detect_compiler tenv cc = Compiler.msvc) ∧
    (tenv ≠ "msvc" →
      (∀ s, cc = some s → strContains s "clang" = true →
        detect_compiler tenv cc = Compiler.clang) ∧
      (∀ s, cc = some s → strContains s "clang" = false → strContains s "gcc" = true →
        detect_compiler tenv cc = Compiler.gcc) ∧
      (∀ s, cc = some s → strContains s "clang" = false → strContains s "gcc" = false →
        detect_compiler tenv cc = Compiler.unknown) ∧
      (cc = none → detect_compiler tenv cc = Compiler.unknown)) := by
  constructor
  · intro h
    simp [detect_compiler, h]
  · intro h
    refine ⟨?_, ?_, ?_, ?_⟩
    · intro s hs hc
      subst hs
      simp [detect_compiler, h, hc]
    · intro s hs hc hg
      subst hs
      simp [detect_compiler, h, hc, hg]
    · intro s hs hc hg
      subst hs
      simp [detect_compiler, h, hc, hg]
    · intro hn
      subst hn
      simp [detect_compiler, h]

/-- Witness for C7 at a concrete input: a gnu-environment hint containing
both "clang" and "gcc" classifies as clang. -/
theorem c7_witness :
    ("gnu" : String) ≠ "msvc" ∧
    strContains "gcc-wrapped-clang" "clang" = true ∧
    detect_compiler "gnu" (some "gcc-wrapped-clang") = Compiler.clang :=
  ⟨by decide, by decide,
    ((c7_compiler_classification "gnu" (some "gcc-wrapped-clang")).2 (by decide)).1
      "gcc-wrapped-clang" rfl (by decide)⟩

/-! ### Claim C10: allocator result construction -/

theorem SnmallocAlloc.construct_alloc_result_spec (ptr : Nat) (layout : SnmallocAlloc.Layout) :
    ((∃ e, SnmallocAlloc.construct_alloc_result ptr layout = Except.error e) ↔ ptr = 0) ∧
    (∀ p len, SnmallocAlloc.construct_alloc_result ptr layout = Except.ok (p, len) →
      p ≠ 0 ∧ len = layout.size) := by
  unfold SnmallocAlloc.construct_alloc_result
  constructor
  · constructor
    · intro he
      obtain ⟨e, he⟩ := he
      by_contra hz
      rw [if_neg hz] at he
      cases he
    · intro hz
      exact ⟨SnmallocAlloc.AllocErr.allocError, by rw [if_pos hz]⟩
  · intro p len h
    by_cases hz : ptr = 0
    · rw [if_pos hz] at h
      cases h
    · rw [if_neg hz] at h
      cases h
      exact ⟨hz, rfl⟩

/-- C10: each of `SnAllocator::allocate`, `allocate_zeroed`, `grow`,
`grow_zeroed` and `shrink` fails with `AllocError` exactly when its
underlying FFI call returns the null pointer, and on success returns a
non-null slice pointer whose length is the size of the layout passed to
that call (the new layout for `grow`/`grow_zeroed`/`shrink`). -/
theorem c10_allocator_results :
    (∀ (ffi : Nat → Nat → Nat → Nat) (self : Nat) (layout : SnmallocAlloc.Layout),
      ((∃ e, SnmallocAlloc.SnAllocator.allocate ffi self layout = Except.error e) ↔
        ffi self layout.align layout.size = 0) ∧
      (∀ p len, SnmallocAlloc.SnAllocator.allocate ffi self layout = Except.ok (p, len) →
        p ≠ 0 ∧ len = layout.size)) ∧
    (∀ (ffi : Nat → Nat → Nat → Nat) (self : Nat) (layout : SnmallocAlloc.Layout),
      ((∃ e, SnmallocAlloc.SnAllocator.allocate_zeroed ffi self layout = Except.error e) ↔
        ffi self layout.align layout.size = 0) ∧
      (∀ p len, SnmallocAlloc.SnAllocator.allocate_zeroed ffi self layout = Except.ok (p, len) →
        p ≠ 0 ∧ len = layout.size)) ∧
    (∀ (ffi : Nat → Nat → Nat → Nat → Nat → Nat → Nat) (self ptr : Nat)
        (old_layout new_layout : SnmallocAlloc.Layout),
      ((∃ e, SnmallocAlloc.SnAllocator.grow ffi self ptr old_layout new_layout = Except.error e) ↔
        ffi self ptr old_layout.align old_layout.size new_layout.align new_layout.size = 0) ∧
      (∀ p len, SnmallocAlloc.SnAllocator.grow ffi self ptr old_layout new_layout
          = Except.ok (p, len) → p ≠ 0 ∧ len = new_layout.size)) ∧
    (∀ (ffi : Nat → Nat → Nat → Nat → Nat → Nat → Nat) (self ptr : Nat)
        (old_layout new_layout : SnmallocAlloc.Layout),
      ((∃ e, SnmallocAlloc.SnAllocator.grow_zeroed ffi self ptr old_layout new_layout
          = Except.error e) ↔
        ffi self ptr old_layout.align old_layout.size new_layout.align new_layout.size = 0) ∧
      (∀ p len, SnmallocAlloc.SnAllocator.grow_zeroed ffi self ptr old_layout new_layout
          = Except.ok (p, len) → p ≠ 0 ∧ len = new_layout.size)) ∧
    (∀ (ffi : Nat → Nat → Nat → Nat → Nat → Nat → Nat) (self ptr : Nat)
        (old_layout new_layout : SnmallocAlloc.Layout),
      ((∃ e, SnmallocAlloc.SnAllocator.shrink ffi self ptr old_layout new_layout
          = Except.error e) ↔
        ffi self ptr old_layout.align old_layout.size new_layout.align new_layout.size = 0) ∧
      (∀ p len, SnmallocAlloc.SnAllocator.shrink ffi self ptr old_layout new_layout
          = Except.ok (p, len) → p ≠ 0 ∧ len = new_layout.size)) :=
  ⟨fun ffi self layout =>
     SnmallocAlloc.construct_alloc_result_spec (ffi self layout.align layout.size) layout,
   fun ffi self layout =>
     SnmallocAlloc.construct_alloc_result_spec (ffi self layout.align layout.size) layout,
   fun ffi self ptr ol nl =>
     SnmallocAlloc.construct_alloc_result_spec
       (ffi self ptr ol.align ol.size nl.align nl.size) nl,
   fun ffi self ptr ol nl =>
     SnmallocAlloc.construct_alloc_result_spec
       (ffi self ptr ol.align ol.size nl.align nl.size) nl,
   fun ffi self ptr ol nl =>
     SnmallocAlloc.construct_alloc_result_spec
       (ffi self ptr ol.align ol.size nl.align nl.size) nl⟩

/-- Witness for C10 at concrete inputs: a successful allocation through an
FFI oracle returning pointer 3, and a failed `grow` through an oracle
returning null. -/
theorem c10_witness :
    ((3 : Nat) ≠ 0 ∧ (8 : Nat) = (SnmallocAlloc.Layout.mk 8 1).size) ∧
    (∃ e, SnmallocAlloc.SnAllocator.grow (fun _ _ _ _ _ _ => 0) 1 5
      (SnmallocAlloc.Layout.mk 4 4) (SnmallocAlloc.Layout.mk 16 4) = Except.error e) :=
  ⟨(c10_allocator_results.1 (fun _ _ _ => 3) 1 (SnmallocAlloc.Layout.mk 8 1)).2 3 8 rfl,
   ((c10_allocator_results.2.2.1 (fun _ _ _ _ _ _ => 0) 1 5
      (SnmallocAlloc.Layout.mk 4 4) (SnmallocAlloc.Layout.mk 16 4)).1).mpr rfl⟩

/-! ### Claim C8: msvc mincore vs win8compat -/

/-- The defines `configure_features` appends, in call order. -/
def featuresDefinesOf (cfg : CfgFeatures) (c : BuildConfig) : List (String × String) :=
  (if c.features.native_cpu = true then [("SNMALLOC_OPTIMISE_FOR_CURRENT_MACHINE", "ON")] else []) ++
  (if c.features.qemu = true then [("SNMALLOC_QEMU_WORKAROUND", "ON")] else []) ++
  (if c.features.lto = true ∧ (c.compiler = Compiler.clang ∨ c.compiler = Compiler.gcc) then
    [("SNMALLOC_IPO", "ON")] else []) ++
  (if c.features.notls = true then [("SNMALLOC_ENABLE_DYNAMIC_LOADING", "ON")] else []) ++
  (if c.features.win8compat = true then
    [if cfg.build_cc = true then ("WINVER", "0x0603") else ("WIN8COMPAT", "ON")] else []) ++
  [("SNMALLOC_USE_WAIT_ON_ADDRESS", if c.features.wait_on_address = true then "1" else "0")] ++
  (if cfg.build_cc = true then [] else
    ("CMAKE_CXX_STANDARD", c.cmake_cxx_standard) ::
      (if c.features.stats = true then [("USE_SNMALLOC_STATS", "ON")] else []))

theorem configure_features_defines (cfg : CfgFeatures) (c : BuildConfig) (b : Builder) :
    (configure_features cfg c b).defines = b.defines ++ featuresDefinesOf cfg c := by
  unfold configure_features featuresDefinesOf
  cases hc : c.compiler <;> simp only [hc] <;> (repeat' split) <;>
    simp_all [defineIf_defines, defineOpt_defines]

/-- C8: for every msvc plan the link planner emits the dynamic "mincore"
directive exactly when the win8-compat toggle is off, and when the toggle
is on a Windows-8 minimum-version define (`WINVER`=`0x0603` in `build_cc`
mode, `WIN8COMPAT`=`ON` in cmake mode) is emitted by the feature stage
instead. -/
theorem c8_msvc_mincore (cfg : CfgFeatures) (c : BuildConfig) (dst : Option String) (b : Builder)
    (henv : c.target_env = "msvc") :
    ((LinkDirective.dylib "mincore" ∈ configure_linking cfg c dst) ↔
      c.features.win8compat = false) ∧
    (c.features.win8compat = true →
      (if cfg.build_cc = true then ("WINVER", "0x0603") else ("WIN8COMPAT", "ON"))
        ∈ (configure_features cfg c b).defines) := by
  constructor
  · unfold configure_linking
    rw [if_pos henv]
    cases hw : c.features.win8compat <;> cases dst <;> simp [hw]
  · intro hw
    rw [configure_features_defines]
    unfold featuresDefinesOf
    cases hbc : cfg.build_cc <;> simp [hw, hbc]

/-- A concrete msvc configuration with the win8-compat toggle set. -/
def cW8 : BuildConfig :=
  { debug := false, optim_level := "-O3", target_os := "windows", target_env := "msvc",
    target_family := "windows", target := "x86_64-pc-windows-msvc", out_dir := "out",
    build_type := "Release", msystem := none, cmake_cxx_standard := "20",
    target_lib := "snmallocshim-rust",
    features := { native_cpu := false, qemu := false, wait_on_address := false, lto := false,
                  notls := false, win8compat := true, stats := false, android_lld := false,
                  local_dynamic_tls := false },
    compiler := Compiler.msvc }

/-- Witness for C8 at a concrete msvc input with win8-compat set. -/
theorem c8_witness :
    cW8.target_env = "msvc" ∧
    ((LinkDirective.dylib "mincore" ∈ configure_linking cfg0 cW8 none) ↔
      cW8.features.win8compat = false) ∧
    (cW8.features.win8compat = true →
      (if cfg0.build_cc = true then ("WINVER", "0x0603") else ("WIN8COMPAT", "ON"))
        ∈ (configure_features cfg0 cW8 emptyBuilder).defines) :=
  ⟨rfl, (c8_msvc_mincore cfg0 cW8 none emptyBuilder rfl).1,
    (c8_msvc_mincore cfg0 cW8 none emptyBuilder rfl).2⟩

/-! ### Claim C5: FreeBSD link handling -/

/-- A configuration whose plan targets FreeBSD (gnu environment, unix
family) while the build script itself runs on a linux host. -/
def cC5 : BuildConfig :=
  { debug := false, optim_level := "-O3", target_os := "freebsd", target_env := "gnu",
    target_family := "unix", target := "x86_64-unknown-freebsd", out_dir := "out",
    build_type := "Release", msystem := none, cmake_cxx_standard := "20",
    target_lib := "snmallocshim-rust",
    features := { native_cpu := false, qemu := false, wait_on_address := false, lto := false,
                  notls := false, win8compat := false, stats := false, android_lld := false,
                  local_dynamic_tls := false },
    compiler := Compiler.unknown }

/-- Counterexample to C5 as stated: a non-msvc plan whose target OS is
FreeBSD, built on a linux host, gets no dynamic `c++` directive at all
(the code keys the FreeBSD branch on `cfg!(target_os = "freebsd")`, the
build script's own OS); instead the other-Unix gnu rule fires. -/
theorem c5_counterexample :
    cC5.target_os = "freebsd" ∧ cC5.target_env ≠ "msvc" ∧
    LinkDirective.dylib "c++" ∉ configure_linking cfg0 cC5 none ∧
    configure_linking cfg0 cC5 none =
      [LinkDirective.staticLib "snmallocshim-rust", LinkDirective.dylib "c_nonshared"] := by
  refine ⟨rfl, by decide, by decide, by decide⟩

/-- C5 (amended): the FreeBSD early return is keyed on the OS the build
script itself is compiled for.  For every non-msvc plan with a FreeBSD
build-script host, the link planner emits exactly the static library
directive, the optional search path, the `/usr/local/lib` search path and
a dynamic `c++` directive, and nothing else — none of the Windows-GNU,
Linux, other-Unix or fallback directives. -/
theorem c5_freebsd_early_return (cfg : CfgFeatures) (c : BuildConfig) (dst : Option String)
    (hhost : cfg.cfg_target_os = "freebsd") (henv : c.target_env ≠ "msvc") :
    configure_linking cfg c dst =
      [LinkDirective.staticLib c.target_lib] ++
      (match dst with
       | some d => [LinkDirective.searchNative d]
       | none => []) ++
      [LinkDirective.searchNative "/usr/local/lib", LinkDirective.dylib "c++"] := by
  unfold configure_linking
  rw [if_neg henv, if_pos hhost]
  cases dst <;> simp

/-- Witness for C5 (amended) at a concrete input: a FreeBSD host build. -/
theorem c5_witness :
    ({ cfg0 with cfg_target_os := "freebsd" } : CfgFeatures).cfg_target_os = "freebsd" ∧
    cC5.target_env ≠ "msvc" ∧
    configure_linking { cfg0 with cfg_target_os := "freebsd" } cC5 (some "build") =
      [LinkDirective.staticLib cC5.target_lib] ++ [LinkDirective.searchNative "build"] ++
      [LinkDirective.searchNative "/usr/local/lib", LinkDirective.dylib "c++"] :=
  ⟨rfl, by decide,
    c5_freebsd_early_return { cfg0 with cfg_target_os := "freebsd" } cC5 (some "build")
      rfl (by decide)⟩

/-! ### Claim C2: Windows + GNU (MinGW) link handling -/

/-- A Windows-GNU configuration under the UCRT64 MSYS2 sub-environment. -/
def cC2 : BuildConfig :=
  { debug := false, optim_level := "-O3", target_os := "windows", target_env := "gnu",
    target_family := "windows", target := "x86_64-pc-windows-gnu", out_dir := "out",
    build_type := "Release", msystem := some "UCRT64", cmake_cxx_standard := "20",
    target_lib := "snmallocshim-rust",
    features := { native_cpu := false, qemu := false, wait_on_address := false, lto := false,
                  notls := false, win8compat := false, stats := false, android_lld := false,
                  local_dynamic_tls := false },
    compiler := Compiler.unknown }

/-- Counterexample to C2 as stated: under UCRT64 (not a clang variant) the
link planner emits `stdc++` but not `atomic`, while the claim requires
both for every non-clang sub-environment. -/
theorem c2_counterexample :
    cC2.target_os = "windows" ∧ cC2.target_env = "gnu" ∧ is_clang_msys cC2 = false ∧
    LinkDirective.dylib "stdc++" ∈ configure_linking cfg0 cC2 none ∧
    LinkDirective.dylib "atomic" ∉ configure_linking cfg0 cC2 none := by
  decide

/-- C2 (amended): for every windows-gnu plan not built on a FreeBSD host,
the link planner emits `bcrypt` and `winpthread`; a clang MSYS2 variant
links `c++`; UCRT64 links `stdc++` only (no `atomic`); every other
msystem value links `stdc++` and `atomic`. -/
theorem c2_windows_gnu_links (cfg : CfgFeatures) (c : BuildConfig) (dst : Option String)
    (hos : c.target_os = "windows") (henv : c.target_env = "gnu")
    (hhost : cfg.cfg_target_os ≠ "freebsd") :
    LinkDirective.dylib "bcrypt" ∈ configure_linking cfg c dst ∧
    LinkDirective.dylib "winpthread" ∈ configure_linking cfg c dst ∧
    (is_clang_msys c = true → LinkDirective.dylib "c++" ∈ configure_linking cfg c dst) ∧
    (is_clang_msys c = false → LinkDirective.dylib "stdc++" ∈ configure_linking cfg c dst) ∧
    (is_clang_msys c = false → c.msystem ≠ some "UCRT64" →
      LinkDirective.dylib "atomic" ∈ configure_linking cfg c dst) ∧
    (c.msystem = some "UCRT64" → LinkDirective.dylib "atomic" ∉ configure_linking cfg c dst) := by
  have hmsvc : ¬c.target_env = "msvc" := by rw [henv]; decide
  have hlin : ¬c.target_os = "linux" := by rw [hos]; decide
  unfold configure_linking
  rw [if_neg hmsvc, if_neg hhost,
    if_pos (⟨hos, henv⟩ : c.target_os = "windows" ∧ c.target_env = "gnu"), if_neg hlin]
  refine ⟨?_, ?_, ?_, ?_, ?_, ?_⟩
  · cases dst <;> simp
  · cases dst <;> simp
  · intro hcm
    rw [if_pos hcm]
    cases dst <;> simp
  · intro hcm
    rw [if_neg (by simp [hcm])]
    by_cases hu : c.msystem = some "UCRT64"
    · rw [if_pos hu]
      cases dst <;> simp
    · rw [if_neg hu]
      cases dst <;> simp
  · intro hcm hu
    rw [if_neg (by simp [hcm]), if_neg hu]
    cases dst <;> simp
  · intro hu
    have hcm : is_clang_msys c = false := by
      unfold is_clang_msys
      rw [hu]
      decide
    rw [if_neg (by simp [hcm]), if_pos hu]
    cases dst <;> (repeat' split) <;> simp_all

/-- Witness for C2 (amended) at the concrete UCRT64 input. -/
theorem c2_witness :
    cC2.target_os = "windows" ∧ cC2.target_env = "gnu" ∧ cfg0.cfg_target_os ≠ "freebsd" ∧
    (LinkDirective.dylib "bcrypt" ∈ configure_linking cfg0 cC2 none ∧
     LinkDirective.dylib "winpthread" ∈ configure_linking cfg0 cC2 none ∧
     (is_clang_msys cC2 = true → LinkDirective.dylib "c++" ∈ configure_linking cfg0 cC2 none) ∧
     (is_clang_msys cC2 = false →
       LinkDirective.dylib "stdc++" ∈ configure_linking cfg0 cC2 none) ∧
     (is_clang_msys cC2 = false → cC2.msystem ≠ some "UCRT64" →
       LinkDirective.dylib "atomic" ∈ configure_linking cfg0 cC2 none) ∧
     (cC2.msystem = some "UCRT64" →
       LinkDirective.dylib "atomic" ∉ configure_linking cfg0 cC2 none)) :=
  ⟨rfl, rfl, by decide, c2_windows_gnu_links cfg0 cC2 none rfl rfl (by decide)⟩

/-! ### Claim C6: Android ABI mapping -/

/-- C6: with the NDK location present, the Android configuration maps the
first matching architecture substring of the triple, tested in the order
aarch64, armv7, x86_64, i686, neon, arm, to exactly one `ANDROID_ABI`
define (armv7 additionally emitting the ARM instruction-mode define), and
fails fatally when no pattern matches. -/
theorem c6_android_abi (cfg : CfgFeatures) (ctx : BuildContext) (c : BuildConfig) (b : Builder)
    (hand : strContains c.target "android" = true)
    (hndk : ctx.android_ndk.isSome = true) :
    (strContains c.target "aarch64" = true →
      ∃ b', configure_android cfg ctx c b = Except.ok b' ∧
        countKey b' "ANDROID_ABI" = countKey b "ANDROID_ABI" + 1 ∧
        ("ANDROID_ABI", "arm64-v8a") ∈ b'.defines) ∧
    (strContains c.target "aarch64" = false → strContains c.target "armv7" = true →
      ∃ b', configure_android cfg ctx c b = Except.ok b' ∧
        countKey b' "ANDROID_ABI" = countKey b "ANDROID_ABI" + 1 ∧
        ("ANDROID_ABI", "armeabi-v7a") ∈ b'.defines ∧
        ("ANDROID_ARM_MODE", "arm") ∈ b'.defines) ∧
    (strContains c.target "aarch64" = false → strContains c.target "armv7" = false →
      strContains c.target "x86_64" = true →
      ∃ b', configure_android cfg ctx c b = Except.ok b' ∧
        countKey b' "ANDROID_ABI" = countKey b "ANDROID_ABI" + 1 ∧
        ("ANDROID_ABI", "x86_64") ∈ b'.defines) ∧
    (strContains c.target "aarch64" = false → strContains c.target "armv7" = false →
      strContains c.target "x86_64" = false → strContains c.target "i686" = true →
      ∃ b', configure_android cfg ctx c b = Except.ok b' ∧
        countKey b' "ANDROID_ABI" = countKey b "ANDROID_ABI" + 1 ∧
        ("ANDROID_ABI", "x86") ∈ b'.defines) ∧
    (strContains c.target "aarch64" = false → strContains c.target "armv7" = false →
      strContains c.target "x86_64" = false → strContains c.target "i686" = false →
      strContains c.target "neon" = true →
      ∃ b', configure_android cfg ctx c b = Except.ok b' ∧
        countKey b' "ANDROID_ABI" = countKey b "ANDROID_ABI" + 1 ∧
        ("ANDROID_ABI", "armeabi-v7a with NEON") ∈ b'.defines) ∧
    (strContains c.target "aarch64" = false → strContains c.target "armv7" = false →
      strContains c.target "x86_64" = false → strContains c.target "i686" = false →
      strContains c.target "neon" = false → strContains c.target "arm" = true →
      ∃ b', configure_android cfg ctx c b = Except.ok b' ∧
        countKey b' "ANDROID_ABI" = countKey b "ANDROID_ABI" + 1 ∧
        ("ANDROID_ABI", "armeabi-v7a") ∈ b'.defines) ∧
    (strContains c.target "aarch64" = false → strContains c.target "armv7" = false →
      strContains c.target "x86_64" = false → strContains c.target "i686" = false →
      strContains c.target "neon" = false → strContains c.target "arm" = false →
      configure_android cfg ctx c b = Except.error "Unsupported Android architecture") := by
  obtain ⟨ndk, hndk'⟩ := Option.isSome_iff_exists.mp hndk
  unfold configure_android
  rw [hndk']
  refine ⟨?_, ?_, ?_, ?_, ?_, ?_, ?_⟩ <;>
    (intros
     repeat' split
     all_goals simp_all [countKey_define, countKey_defineOpt, countKey_defineIf])

/-- A configuration cross-compiling for an armv7 Android triple. -/
def cC6 : BuildConfig :=
  { debug := false, optim_level := "-O3", target_os := "android", target_env := "gnu",
    target_family := "unix", target := "armv7-linux-androideabi", out_dir := "out",
    build_type := "Release", msystem := none, cmake_cxx_standard := "20",
    target_lib := "snmallocshim-rust",
    features := { native_cpu := false, qemu := false, wait_on_address := false, lto := false,
                  notls := false, win8compat := false, stats := false, android_lld := false,
                  local_dynamic_tls := false },
    compiler := Compiler.unknown }

/-- The ambient environment for the armv7 Android witness. -/
def ctxC6 : BuildContext :=
  { target_os := some "android", target_env := some "gnu", target_family := some "unix",
    target := some "armv7-linux-androideabi", out_dir := some "out",
    msystem := none, cc := none, android_ndk := some "/opt/ndk", android_platform := none }

/-- Witness for C6 at the concrete armv7 Android input. -/
theorem c6_witness :
    strContains cC6.target "android" = true ∧ ctxC6.android_ndk.isSome = true ∧
    strContains cC6.target "aarch64" = false ∧ strContains cC6.target "armv7" = true ∧
    (∃ b', configure_android cfg0 ctxC6 cC6 emptyBuilder = Except.ok b' ∧
      countKey b' "ANDROID_ABI" = countKey emptyBuilder "ANDROID_ABI" + 1 ∧
      ("ANDROID_ABI", "armeabi-v7a") ∈ b'.defines ∧
      ("ANDROID_ARM_MODE", "arm") ∈ b'.defines) :=
  ⟨by decide, by decide, by decide, by decide,
    (c6_android_abi cfg0 ctxC6 cC6 emptyBuilder (by decide) (by decide)).2.1
      (by decide) (by decide)⟩

/-! ### Claim C3: LTO gating of the IPO define -/

/-- C3: on every successful plan with the LTO toggle set, no `SNMALLOC_IPO`
define is emitted when the detected compiler is msvc or unknown, and it is
emitted exactly once when the detected compiler is clang or gcc. -/
theorem c3_lto_gating (cfg : CfgFeatures) (ctx : BuildContext) (dst : Option String)
    (c : BuildConfig) (b : Builder) (l : List LinkDirective)
    (h : plan cfg ctx dst = Except.ok (c, b, l)) (hlto : cfg.lto = true) :
    ((c.compiler = Compiler.msvc ∨ c.compiler = Compiler.unknown) →
      countKey b "SNMALLOC_IPO" = 0) ∧
    ((c.compiler = Compiler.clang ∨ c.compiler = Compiler.gcc) →
      countKey b "SNMALLOC_IPO" = 1) := by
  have hcount := plan_countIPO h
  have hinv := new_ok_inv (plan_ok_inv h).1
  have hfeat : c.features.lto = true := by
    have := hinv.2.2.2.2.2.2.2.2.2.2.2.1
    rw [this]
    simp [BuildFeatures.new, hlto]
  constructor
  · intro hcomp
    rw [hcount]
    rcases hcomp with h' | h' <;> simp [h']
  · intro hcomp
    rw [hcount]
    rcases hcomp with h' | h' <;> simp [h', hfeat]

/-- Compile-time facts for the C3 witness: LTO toggle on. -/
def cfgC3 : CfgFeatures := { cfg0 with lto := true }

/-- Ambient environment for the C3 witness: a clang compiler hint. -/
def ctxC3 : BuildContext := { ctx0 with cc := some "clang" }

/-- Witness for C3 at a concrete input: LTO on, clang hint, one IPO define. -/
theorem c3_witness :
    cfgC3.lto = true ∧ (planOut cfgC3 ctxC3 none).1.compiler = Compiler.clang ∧
    countKey (planOut cfgC3 ctxC3 none).2.1 "SNMALLOC_IPO" = 1 :=
  ⟨rfl, rfl,
    (c3_lto_gating cfgC3 ctxC3 none (planOut cfgC3 ctxC3 none).1
        (planOut cfgC3 ctxC3 none).2.1 (planOut cfgC3 ctxC3 none).2.2 rfl rfl).2
      (Or.inl rfl)⟩

/-! ### Claim C1: dialect mutual exclusion of the flag set -/

/-- The profile/standard/TLS/native flags every plan may request, over and
above the platform-dependent sets. -/
def miscFlags : List String :=
  ["-O0", "-O3", "-fomit-frame-pointer", "-std=c++17", "/std:c++17", "-std=c++20", "/std:c++20",
   "-ftls-model=local-dynamic", "-ftls-model=initial-exec", "-march=native"]

theorem platformFlagsOf_mem (c : BuildConfig) :
    ∀ f ∈ platformFlagsOf c,
      (c.target_os = "windows" ∧ f ∈ windowsCommonFlags ++ clangMsysFlags ++ ucrtFlags) ∨
      (c.target_os ≠ "windows" ∧ f ∈ unixFlags) ∨
      (c.target_env = "msvc" ∧ f ∈ msvcFlags) := by
  intro f hmem
  unfold platformFlagsOf msysExtraFlags at hmem
  simp only [List.mem_append] at hmem
  rcases hmem with hmem | hmem
  · split at hmem
    · rename_i hw
      left
      refine ⟨hw, ?_⟩
      simp only [List.mem_append] at hmem ⊢
      rcases hmem with hmem | hmem
      · exact Or.inl (Or.inl hmem)
      · repeat' split at hmem
        all_goals (first | tauto | simp_all)
    · rename_i hw
      split at hmem
      · exact Or.inr (Or.inl ⟨hw, hmem⟩)
      · simp at hmem
  · split at hmem
    · rename_i hm
      exact Or.inr (Or.inr ⟨hm, hmem⟩)
    · simp at hmem

theorem planFlagsOf_mem (cfg : CfgFeatures) (c : BuildConfig)
    (hopt : c.optim_level = "-O0" ∨ c.optim_level = "-O3") :
    ∀ f ∈ planFlagsOf cfg c,
      f ∈ miscFlags ∨
      (c.target_os = "windows" ∧ f ∈ windowsCommonFlags ++ clangMsysFlags ++ ucrtFlags) ∨
      (c.target_os ≠ "windows" ∧ f ∈ unixFlags) ∨
      (c.target_env = "msvc" ∧ f ∈ msvcFlags) := by
  intro f hmem
  unfold planFlagsOf at hmem
  simp only [List.append_assoc, List.mem_append, List.mem_cons] at hmem
  rcases hmem with hmem | hmem
  · have := platformFlagsOf_mem c f hmem
    tauto
  · rcases hmem with hmem | hmem
    · rcases hmem with hf | hf | hf
      · left
        rcases hopt with ho | ho <;> rw [hf, ho] <;> decide
      · left
        rw [hf]
        decide
      · left
        unfold get_cpp_flags at hf
        simp only [miscFlags]
        split at hf <;> simp_all <;> tauto
    · rcases hmem with hmem | hmem
      · left
        unfold tlsFlagsOf at hmem
        repeat' split at hmem
        all_goals simp_all [miscFlags]
      · left
        split at hmem
        · simp_all [miscFlags]
        · simp at hmem

/-- Ambient environment of a native Windows MSVC build. -/
def ctxMsvc : BuildContext :=
  { target_os := some "windows", target_env := some "msvc", target_family := some "windows",
    target := some "x86_64-pc-windows-msvc", out_dir := some "out",
    msystem := none, cc := none, android_ndk := none, android_platform := none }

/-- Counterexample to C1 as stated: on an msvc-environment input the
Windows-family common baseline is still requested through
`flag_if_supported`, so the planner's flag set contains the Unix baseline
flag `-pthread`. -/
theorem c1_counterexample :
    (planOut cfg0 ctxMsvc none).1.target_env = "msvc" ∧
    "-pthread" ∈ (planOut cfg0 ctxMsvc none).2.1.flags := by
  decide

/-- C1 (amended): mutual exclusion holds for the Unix-only flags and the
MSVC warning/ABI flag set.  On every successful plan, an msvc-environment
windows-OS input never requests `-fPIC` or `-Wno-unused-parameter`, and a
gnu-environment input never requests any flag of the fixed MSVC
warning/ABI set; only the shared Windows-family baseline (`-mcx16`,
`-fno-exceptions`, `-fno-rtti`, `-pthread`) and the MSVC-spelled standard
flag cross the dialect boundary, to be absorbed by apply-if-supported. -/
theorem c1_mutual_exclusion (cfg : CfgFeatures) (ctx : BuildContext) (dst : Option String)
    (c : BuildConfig) (b : Builder) (l : List LinkDirective)
    (h : plan cfg ctx dst = Except.ok (c, b, l)) :
    (c.target_env = "msvc" → c.target_os = "windows" →
      "-fPIC" ∉ b.flags ∧ "-Wno-unused-parameter" ∉ b.flags) ∧
    (c.target_env = "gnu" → ∀ f ∈ msvcFlags, f ∉ b.flags) := by
  have hf := plan_flags h
  have hinv := new_ok_inv (plan_ok_inv h).1
  have hopt : c.optim_level = "-O0" ∨ c.optim_level = "-O3" := by
    have hlev := hinv.2.2.2.2.2.2.1
    cases hd : cfg.debug <;> rw [hd] at hlev <;> simp at hlev <;> simp [hlev]
  cases hbc : cfg.build_cc with
  | false =>
    rw [hbc] at hf
    simp only [Bool.false_eq_true, if_false] at hf
    rw [hf]
    simp
  | true =>
    rw [hbc] at hf
    simp only [if_true] at hf
    have hsub := planFlagsOf_mem cfg c hopt
    constructor
    · intro henv hos
      constructor <;>
        (intro hmem
         rw [hf] at hmem
         rcases hsub _ hmem with h' | ⟨_, h'⟩ | ⟨hnw, _⟩ | ⟨_, h'⟩)
      · exact absurd h' (by decide)
      · exact absurd h' (by decide)
      · exact hnw hos
      · exact absurd h' (by decide)
      · exact absurd h' (by decide)
      · exact absurd h' (by decide)
      · exact hnw hos
      · exact absurd h' (by decide)
    · intro henv f hmf hmem
      rw [hf] at hmem
      rcases hsub f hmem with h' | ⟨_, h'⟩ | ⟨_, h'⟩ | ⟨hms, _⟩
      · exact (by decide : ∀ g ∈ msvcFlags, g ∉ miscFlags) f hmf h'
      · exact (by decide : ∀ g ∈ msvcFlags,
          g ∉ windowsCommonFlags ++ clangMsysFlags ++ ucrtFlags) f hmf h'
      · exact (by decide : ∀ g ∈ msvcFlags, g ∉ unixFlags) f hmf h'
      · rw [henv] at hms
        exact absurd hms (by decide)

/-- Witness for C1 (amended) at a concrete gnu input: no MSVC warning/ABI
flag is requested for the native Linux GNU build. -/
theorem c1_witness :
    (planOut cfg0 ctx0 none).1.target_env = "gnu" ∧
    (∀ f ∈ msvcFlags, f ∉ (planOut cfg0 ctx0 none).2.1.flags) :=
  ⟨rfl,
    (c1_mutual_exclusion cfg0 ctx0 none (planOut cfg0 ctx0 none).1
        (planOut cfg0 ctx0 none).2.1 (planOut cfg0 ctx0 none).2.2 rfl).2 rfl⟩

/-! ### Claim C4: profile optimization flags -/

/-- Counterexample to C4 as stated: on an msvc-environment input (release
profile, `build_cc` mode) the planner still requests the profile
optimization flag `-O3` and `-fomit-frame-pointer` — `configure_compiler_flags`
contains no msvc skip. -/
theorem c4_counterexample :
    (planOut cfg0 ctxMsvc none).1.target_env = "msvc" ∧
    "-O3" ∈ (planOut cfg0 ctxMsvc none).2.1.flags ∧
    "-fomit-frame-pointer" ∈ (planOut cfg0 ctxMsvc none).2.1.flags := by
  decide

/-- C4 (amended): on every successful plan the profile-selected
optimization flag (`-O0` under the debug profile, `-O3` under release) and
`-fomit-frame-pointer` are requested through apply-if-supported
unconditionally — also when the environment is msvc, where the compiler's
own support probe is what drops them; in cmake mode (no `build_cc`) flag
requests are no-ops, so no flag at all is recorded. -/
theorem c4_optimization_flags (cfg : CfgFeatures) (ctx : BuildContext) (dst : Option String)
    (c : BuildConfig) (b : Builder) (l : List LinkDirective)
    (h : plan cfg ctx dst = Except.ok (c, b, l)) :
    (cfg.build_cc = true →
      c.optim_level = (if cfg.debug then "-O0" else "-O3") ∧
      c.optim_level ∈ b.flags ∧ "-fomit-frame-pointer" ∈ b.flags) ∧
    (cfg.build_cc = false → b.flags = []) := by
  have hf := plan_flags h
  have hinv := new_ok_inv (plan_ok_inv h).1
  constructor
  · intro hbc
    rw [hbc] at hf
    simp only [if_true] at hf
    refine ⟨hinv.2.2.2.2.2.2.1, ?_, ?_⟩ <;> rw [hf] <;>
      simp [planFlagsOf, List.mem_append]
  · intro hbc
    rw [hbc] at hf
    simpa using hf

/-- Witness for C4 (amended) at the concrete msvc release input in
`build_cc` mode. -/
theorem c4_witness :
    cfg0.build_cc = true ∧
    ((planOut cfg0 ctxMsvc none).1.optim_level = (if cfg0.debug then "-O0" else "-O3") ∧
     (planOut cfg0 ctxMsvc none).1.optim_level ∈ (planOut cfg0 ctxMsvc none).2.1.flags ∧
     "-fomit-frame-pointer" ∈ (planOut cfg0 ctxMsvc none).2.1.flags) :=
  ⟨rfl,
    (c4_optimization_flags cfg0 ctxMsvc none (planOut cfg0 ctxMsvc none).1
        (planOut cfg0 ctxMsvc none).2.1 (planOut cfg0 ctxMsvc none).2.2 rfl).1 rfl⟩

/-! ### Claim C9: fatal abort conditions -/

/-- Whether the Android ABI match of `configure_android` recognizes the
triple: one of the six architecture substrings occurs in it. -/
def androidArchRecognized (t : String) : Bool :=
  strContains t "aarch64" || strContains t "armv7" || strContains t "x86_64" ||
    strContains t "i686" || strContains t "neon" || strContains t "arm"

theorem configure_android_err_iff (cfg : CfgFeatures) (ctx : BuildContext) (c : BuildConfig)
    (b : Builder) :
    (∃ e, configure_android cfg ctx c b = Except.error e) ↔
      (ctx.android_ndk = none ∨ androidArchRecognized c.target = false) := by
  unfold configure_android androidArchRecognized
  cases hndk : ctx.android_ndk with
  | none => simp
  | some ndk =>
    simp only [hndk, Option.some.injEq, reduceCtorEq, false_or]
    repeat' split
    all_goals simp_all

theorem configure_platform_err_iff (cfg : CfgFeatures) (ctx : BuildContext) (c : BuildConfig)
    (b : Builder) :
    (∃ e, configure_platform cfg ctx c b = Except.error e) ↔
      (strContains c.target "android" = true ∧
        (ctx.android_ndk = none ∨ androidArchRecognized c.target = false)) := by
  unfold configure_platform
  split
  · rename_i ha
    rw [configure_android_err_iff]
    simp [ha]
  · rename_i ha
    simp_all

theorem new_err_iff (cfg : CfgFeatures) (ctx : BuildContext) :
    (∃ e, BuildConfig.new cfg ctx = Except.error e) ↔
      (ctx.target_os = none ∨ ctx.target_env = none ∨ ctx.target_family = none ∨
        ctx.target = none ∨ ctx.out_dir = none) := by
  unfold BuildConfig.new
  cases hos : ctx.target_os <;> cases henv : ctx.target_env <;>
    cases hfam : ctx.target_family <;> cases htgt : ctx.target <;>
      cases hout : ctx.out_dir <;> simp

theorem plan_err_iff (cfg : CfgFeatures) (ctx : BuildContext) (dst : Option String) :
    (∃ e, plan cfg ctx dst = Except.error e) ↔
      ((∃ e, BuildConfig.new cfg ctx = Except.error e) ∨
        (∃ c, BuildConfig.new cfg ctx = Except.ok c ∧
          ∃ e, configure_platform cfg ctx c (initialBuilder cfg c) = Except.error e)) := by
  unfold plan
  cases hnew : BuildConfig.new cfg ctx with
  | error e => simp [hnew]
  | ok c =>
    simp only [hnew]
    cases hplat : configure_platform cfg ctx c (initialBuilder cfg c) with
    | error e => simp [hplat]
    | ok b1 => simp [hplat]

/-- C9 (amended): planning aborts fatally exactly when one of the required
context facts — target OS, target environment, target family, target
triple, or the output directory (`OUT_DIR`, which the code also unwraps) —
is absent, or the triple contains "android" and the NDK location is absent
or the Android architecture is unrecognized; all other inputs (unknown
compilers, unsupported flags) plan without surfacing an error. -/
theorem c9_fatal_iff (cfg : CfgFeatures) (ctx : BuildContext) (dst : Option String) :
    (∃ e, plan cfg ctx dst = Except.error e) ↔
      (ctx.target_os = none ∨ ctx.target_env = none ∨ ctx.target_family = none ∨
        ctx.target = none ∨ ctx.out_dir = none ∨
        (∃ t, ctx.target = some t ∧ strContains t "android" = true ∧
          (ctx.android_ndk = none ∨ androidArchRecognized t = false))) := by
  rw [plan_err_iff, new_err_iff]
  constructor
  · rintro (hmiss | ⟨c, hok, herr⟩)
    · tauto
    · have hinv := new_ok_inv hok
      have hcond := (configure_platform_err_iff cfg ctx c (initialBuilder cfg c)).mp herr
      exact Or.inr (Or.inr (Or.inr (Or.inr (Or.inr
        ⟨c.target, hinv.2.2.2.1, hcond.1, hcond.2⟩))))
  · rintro (h | h | h | h | h | ⟨t, ht, hand, hcond⟩)
    · tauto
    · tauto
    · tauto
    · tauto
    · tauto
    · cases hnew : BuildConfig.new cfg ctx with
      | error e => exact Or.inl ((new_err_iff cfg ctx).mp ⟨e, hnew⟩)
      | ok c =>
        right
        refine ⟨c, rfl, ?_⟩
        rw [configure_platform_err_iff]
        have hinv := new_ok_inv hnew
        have hct : c.target = t := by
          have hsome := hinv.2.2.2.1
          rw [ht] at hsome
          injection hsome with hts
          exact hts.symm
        rw [hct]
        exact ⟨hand, hcond⟩

/-- An otherwise complete context whose output directory is absent. -/
def ctxC9 : BuildContext := { ctx0 with out_dir := none }

/-- Counterexample to C9 as stated: all four named context facts are
present and the triple is not Android, yet planning aborts, because the
code also unwraps `OUT_DIR`. -/
theorem c9_counterexample :
    (∃ e, plan cfg0 ctxC9 none = Except.error e) ∧
    ctxC9.target_os.isSome = true ∧ ctxC9.target_env.isSome = true ∧
    ctxC9.target_family.isSome = true ∧
    ctxC9.target = some "x86_64-unknown-linux-gnu" ∧
    strContains "x86_64-unknown-linux-gnu" "android" = false :=
  ⟨⟨"called Option::unwrap on a None value", rfl⟩,
    by decide, by decide, by decide, rfl, by decide⟩

/-- A context cross-compiling an Android triple with no NDK location. -/
def ctxC9b : BuildContext := { ctx0 with target := some "armv7-linux-androideabi" }

/-- Witness for C9 (amended) at a concrete input: an Android triple with
the NDK location absent makes planning abort. -/
theorem c9_witness : ∃ e, plan cfg0 ctxC9b none = Except.error e :=
  (c9_fatal_iff cfg0 ctxC9b none).mpr
    (Or.inr (Or.inr (Or.inr (Or.inr (Or.inr
      ⟨"armv7-linux-androideabi", rfl, by decide, Or.inl rfl⟩)))))

end SnmallocBuild
